import Mathlib

/-!
Verification of `telegram_document_bot.py` against its specification.

The embedding below translates the bot's source into Lean:
* Python `float` arithmetic is idealised as exact rational arithmetic on `ℚ`;
  where a claim hinges on the binary representation of a specific `float`
  literal (the currency-formatting examples), the exact IEEE-754 binary64
  value of the literal is used instead of the decimal literal.
* Fallible Python code (uncaught `ValueError`, `ZeroDivisionError`, `KeyError`)
  is modelled with `Option`/an explicit `raised` outcome.
* The conversation handlers are pure state-transition functions on the session
  data dictionary.
-/

attribute [local semireducible] Rat.mul Rat.inv Rat.add Rat.sub

namespace TelegramDocumentBot

/-- Executable floor on `ℚ` (this is Mathlib's `⌊·⌋`, see `ratFloor_eq_floor`). -/
def ratFloor (x : ℚ) : ℤ := x.floor

theorem ratFloor_eq_floor (x : ℚ) : ratFloor x = ⌊x⌋ := by
  rw [ratFloor, Rat.floor_def' x, Rat.floor_def]

/-- Nearest-integer rounding with ties to even.  Models Python's built-in
`round` (banker's rounding) applied to an exactly-represented value. -/
def roundHalfEven (x : ℚ) : ℤ :=
  let f := ratFloor x
  let frac := x - f
  if frac < 1/2 then f
  else if 1/2 < frac then f + 1
  else if f % 2 = 0 then f else f + 1

/-- Python `round(x, 2)`: half-even rounding at two decimal places. -/
def pyRound2 (x : ℚ) : ℚ := (roundHalfEven (x * 100) : ℚ) / 100

/-- `Decimal.quantize(Decimal("0.01"), rounding=ROUND_HALF_UP)` expressed in
cents: rounds `x` to the nearest multiple of 1/100 with ties away from zero,
returning the number of cents. -/
def quantizeHalfUp2 (x : ℚ) : ℤ :=
  if 0 ≤ x then ratFloor (x * 100 + 1/2) else -(ratFloor ((-x) * 100 + 1/2))

/-- Renders a natural number below 100 with two digits. -/
def pad2 (n : ℕ) : String := if n < 10 then "0" ++ toString n else toString n

/-- Decimal rendering of a cent count, e.g. `123401 ↦ "1234.01"`, matching how
Python prints a two-place `Decimal`. -/
def centsToString (n : ℤ) : String :=
  (if n < 0 then "-" else "") ++ toString (n.natAbs / 100) ++ "." ++ pad2 (n.natAbs % 100)

/-- Source `money` (line 44): `f"€ {Decimal(val).quantize(Decimal('0.01'),
rounding=ROUND_HALF_UP)}"`.  `Decimal(val)` converts the binary float exactly,
so the function is exact half-up rounding of the argument value at 2 decimals. -/
def money (val : ℚ) : String := "€ " ++ centsToString (quantizeHalfUp2 val)

/-- Source `monthly_payment` (lines 49-56).  `none` models a raised
`ZeroDivisionError` (`amount / 0`, `0.0 ** negative`, or a zero annuity
denominator). -/
def monthly_payment (amount : ℚ) (months : ℤ) (annual_rate : ℚ) : Option ℚ :=
  let r := annual_rate / 100 / 12
  if r = 0 then
    if months = 0 then none else some (pyRound2 (amount / (months : ℚ)))
  else if 1 + r = 0 ∧ months < 0 then none
  else
    let den := (1 + r) ^ months - 1
    if den = 0 then none
    else some (pyRound2 (amount * r * (1 + r) ^ months / den))

/-- Module constant `DEFAULT_TAN = 7.86`. -/
def DEFAULT_TAN : ℚ := 786/100

/-- Module constant `DEFAULT_TAEG = 8.30`. -/
def DEFAULT_TAEG : ℚ := 83/10

/-! ### Python numeric literal parsing

`pyFloat?` models Python `float(str)` and `pyInt?` models Python `int(str)` on
the plain decimal notation the bot's users type (optional sign, digits,
optional decimal point after whitespace stripping).  Python additionally
accepts scientific notation, `inf`/`nan` and digit-group underscores; none of
those shapes matter for the claims, and every string below parses (or fails to
parse) exactly as in Python. -/

/-- ASCII whitespace, the kinds Python's `str.strip()` removes in practice
for chat input. -/
def isSpace (c : Char) : Bool := c = ' ' ∨ c = '\t' ∨ c = '\n' ∨ c = '\r'

/-- Python `str.strip()`. -/
def pyStrip (s : String) : String :=
  ⟨((s.toList.dropWhile isSpace).reverse.dropWhile isSpace).reverse⟩

/-- Python `str.replace(c, "")` for a one-character pattern. -/
def removeChar (s : String) (c : Char) : String := ⟨s.toList.filter (· ≠ c)⟩

/-- Python `str.replace(c, r)` for one-character pattern and replacement. -/
def mapChar (s : String) (c r : Char) : String :=
  ⟨s.toList.map fun x => if x = c then r else x⟩

/-- Does the text start with the given character? -/
def headIs (s : String) (c : Char) : Bool :=
  match s.toList with
  | [] => false
  | x :: _ => x = c

/-- Value of a digit string, most significant first. -/
def natOfDigits (cs : List Char) : ℕ :=
  cs.foldl (fun a c => 10 * a + (c.toNat - 48)) 0

/-- Parses a non-empty all-digit string. -/
def digitsToNat? (cs : List Char) : Option ℕ :=
  if cs ≠ [] ∧ cs.all (·.isDigit) then some (natOfDigits cs) else none

/-- Unsigned part of Python `float(str)`: `digits`, `digits.digits`,
`digits.` or `.digits`. -/
def pyFloatCore? (cs : List Char) : Option ℚ :=
  match cs.span (· ≠ '.') with
  | (intp, []) => (digitsToNat? intp).map fun n => (n : ℚ)
  | (intp, '.' :: fracp) =>
    if (intp ≠ [] ∨ fracp ≠ []) ∧ intp.all (·.isDigit) ∧ fracp.all (·.isDigit) then
      some ((natOfDigits intp : ℚ) + (natOfDigits fracp : ℚ) / 10 ^ fracp.length)
    else none
  | (_, _ :: _) => none

/-- Python `float(str)` (plain decimal subset); `none` models a raised
`ValueError`. -/
def pyFloat? (s : String) : Option ℚ :=
  match (pyStrip s).toList with
  | '-' :: rest => (pyFloatCore? rest).map fun q => -q
  | '+' :: rest => pyFloatCore? rest
  | cs => pyFloatCore? cs

/-- Python `int(str)`; `none` models a raised `ValueError`. -/
def pyInt? (s : String) : Option ℤ :=
  match (pyStrip s).toList with
  | '-' :: rest => (digitsToNat? rest).map fun n => -(n : ℤ)
  | '+' :: rest => (digitsToNat? rest).map fun n => (n : ℤ)
  | cs => (digitsToNat? cs).map fun n => (n : ℤ)

/-! ### Conversation state machine

States `CHOOSING_DOC, ASK_NAME, ASK_AMOUNT, ASK_DURATION, ASK_TAN, ASK_TAEG`
(line 41) and the handlers of lines 423-510.  A handler step returns the next
state, the updated `context.user_data` dictionary, the texts sent with
`reply_text` and the filenames sent with `reply_document`; `raised` models an
uncaught Python exception escaping the handler. -/

inductive ConvState where
  | choosing | askName | askAmount | askDuration | askTan | askTaeg
deriving DecidableEq

/-- `context.user_data`: every key the handlers ever store. -/
structure UserData where
  doc_type : Option String
  name : Option String
  amount : Option ℚ
  duration : Option ℤ
  tan : Option ℚ
  taeg : Option ℚ
  payment : Option ℚ
deriving DecidableEq

/-- `context.user_data.clear()` / a fresh session. -/
def emptyData : UserData := ⟨none, none, none, none, none, none, none⟩

inductive StepRes where
  | ok (next : ConvState) (data : UserData) (replies : List String) (docs : List String)
  | raised
deriving DecidableEq

def welcomeText : String := "Benvenuto! Scegli documento:"

/-- Handler `start` (lines 423-430): clears all user data. -/
def start (_d : UserData) : StepRes :=
  .ok .choosing emptyData [welcomeText] []

/-- Handler `cancel` (lines 508-510): replies and delegates to `start`. -/
def cancel (_d : UserData) : StepRes :=
  .ok .choosing emptyData ["Operazione annullata.", welcomeText] []

/-- Handler `choose_doc` (lines 432-438). -/
def choose_doc (d : UserData) (text : String) : StepRes :=
  .ok .askName { d with doc_type := some text } ["Inserisci nome e cognome del cliente:"] []

/-- Handler `ask_name` (lines 440-457).  For `/garanzia` it renders at once,
sends the document and re-runs `start`; otherwise it stores the stripped name
and moves on.  A missing `doc_type` key would be a `KeyError`. -/
def ask_name (d : UserData) (text : String) : StepRes :=
  let name := pyStrip text
  match d.doc_type with
  | none => .raised
  | some dt =>
    if dt = "/garanzia" then
      .ok .choosing emptyData [welcomeText] ["Garanzia_" ++ name ++ ".pdf"]
    else
      .ok .askAmount { d with name := some name } ["Inserisci importo (€):"] []

/-- The amount token normalisation of line 461: strip `€`, comma to dot. -/
def parseAmountText (t : String) : Option ℚ :=
  pyFloat? (mapChar (removeChar t '€') ',' '.')

/-- Handler `ask_amount` (lines 459-467): parse failure is caught and
re-prompts in the same state; success stores `round(amt, 2)`. -/
def ask_amount (d : UserData) (text : String) : StepRes :=
  match parseAmountText text with
  | none => .ok .askAmount d ["Importo non valido, riprova:"] []
  | some amt =>
    .ok .askDuration { d with amount := some (pyRound2 amt) } ["Inserisci durata (mesi):"] []

/-- Handler `ask_duration` (lines 469-477): parse failure is caught and
re-prompts; success stores the integer with no sign or positivity check. -/
def ask_duration (d : UserData) (text : String) : StepRes :=
  match pyInt? text with
  | none => .ok .askDuration d ["Durata non valida, riprova:"] []
  | some mn =>
    .ok .askTan { d with duration := some mn } ["Inserisci TAN (%), enter per 7.86%:"] []

/-- Handler `ask_tan` (lines 479-483): empty input defaults, otherwise
`float(...)` is called with NO try/except, so a bad token raises. -/
def ask_tan (d : UserData) (text : String) : StepRes :=
  let txt := pyStrip text
  if txt = "" then
    .ok .askTaeg { d with tan := some DEFAULT_TAN } ["Inserisci TAEG (%), enter per 8.3%:"] []
  else
    match pyFloat? (mapChar txt ',' '.') with
    | none => .raised
    | some v => .ok .askTaeg { d with tan := some v } ["Inserisci TAEG (%), enter per 8.3%:"] []

/-- Handler `ask_taeg` (lines 485-506): like `ask_tan` the rate parse is
unguarded, and the payment computation dereferences `amount`, `duration`,
`tan` and then `doc_type` outside any try/except (a `ValueError`,
`ZeroDivisionError` or `KeyError` there propagates).  Building and sending the
document sit inside try/except, so a failure there (e.g. the `name` key
missing) is reported as a chat message and `start` still re-runs, clearing the
session. -/
def ask_taeg (d : UserData) (text : String) : StepRes :=
  let txt := pyStrip text
  let taegv? : Option ℚ := if txt = "" then some DEFAULT_TAEG else pyFloat? (mapChar txt ',' '.')
  match taegv? with
  | none => .raised
  | some _tv =>
    match d.amount, d.duration, d.tan with
    | some a, some m, some tanv =>
      match monthly_payment a m tanv with
      | none => .raised
      | some _p =>
        match d.doc_type with
        | none => .raised
        | some dt =>
          match d.name with
          | none =>
            .ok .choosing emptyData
              ["Ошибка при формировании PDF. Сообщите администратору.", welcomeText] []
          | some nm =>
            let fname := (if dt = "/contratto" then "Contratto_" else "Carta_") ++ nm ++ ".pdf"
            .ok .choosing emptyData [welcomeText] [fname]
    | _, _, _ => .raised

/-- `filters.COMMAND`: a message whose text starts with `/`. -/
def isCommand (t : String) : Bool := headIs t '/'

/-- The `fallbacks` of the `ConversationHandler` (line 525): `/cancel` and
`/start` from any state; any other unhandled update leaves state and data
untouched. -/
def fallbacks (s : ConvState) (d : UserData) (t : String) : StepRes :=
  if t = "/cancel" then cancel d
  else if t = "/start" then start d
  else .ok s d [] []

/-- One dispatch step of the `ConversationHandler` (lines 515-526): each
state's `MessageHandler` filter is tried first (`filters.Regex` over the three
document commands for `CHOOSING_DOC`, `filters.TEXT & ~filters.COMMAND`
elsewhere), and an update the state handler does not accept falls through to
the fallbacks. -/
def conv (s : ConvState) (d : UserData) (t : String) : StepRes :=
  match s with
  | .choosing =>
    if t = "/contratto" ∨ t = "/garanzia" ∨ t = "/carta" then choose_doc d t
    else fallbacks .choosing d t
  | .askName => if isCommand t then fallbacks .askName d t else ask_name d t
  | .askAmount => if isCommand t then fallbacks .askAmount d t else ask_amount d t
  | .askDuration => if isCommand t then fallbacks .askDuration d t else ask_duration d t
  | .askTan => if isCommand t then fallbacks .askTan d t else ask_tan d t
  | .askTaeg => if isCommand t then fallbacks .askTaeg d t else ask_taeg d t

/-- Runs a message sequence through `conv`, recording the state after each
step and accumulating the documents produced; `none` models an uncaught
exception somewhere along the run. -/
def runTrace (s : ConvState) (d : UserData) :
    List String → Option (List ConvState × UserData × List String)
  | [] => some ([], d, [])
  | t :: ts =>
    match conv s d t with
    | .raised => none
    | .ok s' d' _ docs =>
      match runTrace s' d' ts with
      | none => none
      | some (tr, dF, docsF) => some (s' :: tr, dF, docs ++ docsF)

/-! ### Renderer model

ReportLab geometry: `cm = 72 / 2.54` points and A4 = 210 mm × 297 mm,
idealised as exact rationals.  Flowables appended to `elems` become `Elem`
values; the per-page canvas callbacks (`onFirstPage` / `onLaterPages` of
`SimpleDocTemplate.build`) become `DrawOp` lists.  Whether an optional asset
file exists is an input boolean (the file system is outside the core). -/

def cm : ℚ := 3600/127

def A4w : ℚ := 75600/127

def A4h : ℚ := 106920/127

/-- Module constants `LOGO_PATH` / `SIGNATURE_PATH` (lines 34-35). -/
def LOGO_PATH : String := "logo_intesa.png"

def SIGNATURE_PATH : String := "image2.png"

/-- A flowable appended to the story list of a document builder. -/
inductive Elem where
  | image (path : String) (w h : ℚ)
  | spacer (w h : ℚ)
  | para (text style : String)
deriving DecidableEq

/-- A primitive canvas drawing operation. -/
inductive DrawOp where
  | text (x y : ℚ) (s : String)
  | line (x0 y0 x1 y1 : ℚ)
  | image (path : String) (x y w h : ℚ)
  | rect (x y w h : ℚ) (lineWidth : ℚ) (strokeColor : String)
deriving DecidableEq

/-- `SignatureLine.draw` (lines 198-220): label at the origin of the baseline,
a line from just after the label to the block width on the same baseline, and,
if a signature path is set and the asset exists, the image centred on the
line.  `textWidth` stands for `canvas.stringWidth(label, ...)`, a font metric
supplied by the canvas. -/
def signatureLineDraw (label : String) (width : ℚ) (signPath : Option String)
    (signW signH : ℚ) (textWidth : ℚ) (assetExists : Bool) : List DrawOp :=
  [.text 0 0 label, .line (textWidth + 6) 0 width 0] ++
  (match signPath with
   | some p =>
     if assetExists then
       [.image p ((textWidth + 6) + ((width - (textWidth + 6)) - signW) / 2)
         (0 - signH / 2) signW signH]
     else []
   | none => [])

/-- `draw_logo` (lines 79-90), the contract's per-page callback: draws
`image1.jpg` at a fixed top-right anchor when the file exists, else nothing
(the body is also wrapped in try/except, so it never raises). -/
def draw_logo (assetOk : Bool) : List DrawOp :=
  if assetOk then
    [.image "image1.jpg" (A4w - (25/10)*cm - (32/10)*cm) (A4h - (25/10)*cm - (17/10)*cm)
      ((32/10)*cm) ((17/10)*cm)]
  else []

/-- `_border` (lines 253-258): fixed orange 4-point rectangle around the
printable margin. -/
def borderOps : List DrawOp :=
  [.rect (1*cm) (1*cm) (A4w - 2*cm) (A4h - 2*cm) 4 "orange"]

/-- The page callbacks a builder hands to `SimpleDocTemplate.build`. -/
inductive PageCallback where
  | drawLogoCb | borderCb
deriving DecidableEq

/-- What a registered callback draws (given whether its asset exists). -/
def pageOps (assetOk : Bool) : Option PageCallback → List DrawOp
  | none => []
  | some .drawLogoCb => draw_logo assetOk
  | some .borderCb => borderOps

/-- The `onFirstPage` / `onLaterPages` pair passed to `build`; an omitted
argument defaults to drawing nothing. -/
structure BuildCall where
  onFirstPage : Option PageCallback
  onLaterPages : Option PageCallback
deriving DecidableEq

/-- ReportLab dispatch: `onFirstPage` runs on page 1 only, `onLaterPages` on
every subsequent page. -/
def decorationsOnPage (b : BuildCall) (assetOk : Bool) (page : ℕ) : List DrawOp :=
  if page = 1 then pageOps assetOk b.onFirstPage else pageOps assetOk b.onLaterPages

/-- `build_contratto` line 245: `doc.build(elems, onFirstPage=draw_logo,
onLaterPages=draw_logo)`. -/
def contrattoBuild : BuildCall := ⟨some .drawLogoCb, some .drawLogoCb⟩

/-- `_letter_common` line 281: `doc.build(elems, onFirstPage=_border)` —
`onLaterPages` is left at its default. -/
def letterBuild : BuildCall := ⟨some .borderCb, none⟩

/-- `build_lettera_garanzia` line 388: `doc.build(elems)` — no page callback
at all. -/
def garanziaBuild : BuildCall := ⟨none, none⟩

/-- The story of `_letter_common` (lines 261-280) as a function of the two
asset-existence checks.  Note both guarded blocks bundle a spacer with the
image, and the signature block additionally bundles the caption paragraph. -/
def letterElems (logoOk sigOk : Bool) (subject body : String) : List Elem :=
  (if logoOk then [.image LOGO_PATH (4*cm) (4*cm), .spacer 1 8] else []) ++
  [.para "Ufficio Crediti Clientela Privata" "Header",
   .spacer 1 10,
   .para ("<b>Oggetto:</b> " ++ subject) "Body",
   .spacer 1 14,
   .para body "Body",
   .spacer 1 24] ++
  (if sigOk then
    [.image SIGNATURE_PATH (4*cm) (2*cm), .spacer 1 4,
     .para "Responsabile Ufficio Crediti Clientela Privata" "Body"]
   else [])

/-- Keep everything except image flowables. -/
def removeImages (es : List Elem) : List Elem :=
  es.filter fun e =>
    match e with
    | .image _ _ _ => false
    | _ => true

/-- Does an image flowable refer to an asset whose existence flag is false? -/
def imageOk (logoOk sigOk : Bool) : Elem → Bool
  | .image p _ _ => if p = LOGO_PATH then logoOk else if p = SIGNATURE_PATH then sigOk else true
  | _ => true

/-! ## Claim theorems -/

/-- C1 counterexample.  The claim asserts that in the zero-rate branch the
result is `amount/months` rounded *half-up* at 2 decimals.  Python's `round`
is half-even: at `amount = 0.125, months = 1, rate = 0` (0.125 is exactly
representable in binary64, so no float idealisation is involved) the code
returns 0.12, while half-up (the code's own `quantizeHalfUp2` rounding mode)
gives 0.13.  Moreover at `rate = -2400, months = 2` the annuity denominator
`(1+r)^months - 1` is exactly 0 and the code raises `ZeroDivisionError`
instead of returning a rounded value. -/
theorem monthly_payment_halfup_counterexample :
    monthly_payment (1/8) 1 0 = some (12/100) ∧
    monthly_payment (1/8) 1 0 ≠ some ((quantizeHalfUp2 ((1/8) / 1) : ℚ) / 100) ∧
    monthly_payment 10000 2 (-2400) = none := by decide

/-- C1 (amended): for every `amount`, integer `months ≥ 1` and rate, with
`r = (rate/100)/12`: if `r = 0` the result is `round(amount/months, 2)` under
Python's half-even `round`; if `r ≠ 0` and `(1+r)^months ≠ 1` (the latter can
only fail at rate `-2400` with even months, where the code raises), the result
is the annuity formula value rounded half-even at 2 decimals.  In particular
`monthly_payment(10000, 24, 7.86) = 451.63`, the closed-form value rounded at
2 decimals, and `monthly_payment(10000, 24, 0) = round(10000/24, 2)`. -/
theorem monthly_payment_spec_amended (amount : ℚ) (months : ℤ) (rate : ℚ)
    (hm : 1 ≤ months) :
    (rate = 0 → monthly_payment amount months rate = some (pyRound2 (amount / (months : ℚ)))) ∧
    (rate ≠ 0 → (1 + rate/100/12) ^ months ≠ 1 →
      monthly_payment amount months rate =
        some (pyRound2 (amount * (rate/100/12) * (1 + rate/100/12) ^ months /
          ((1 + rate/100/12) ^ months - 1)))) ∧
    monthly_payment 10000 24 (786/100) = some (45163/100) ∧
    (45163/100 : ℚ) = pyRound2 (10000 * ((786/100)/100/12) * (1 + (786/100)/100/12) ^ (24:ℤ) /
      ((1 + (786/100)/100/12) ^ (24:ℤ) - 1)) ∧
    monthly_payment 10000 24 0 = some (pyRound2 (10000 / 24)) := by
  have hm0 : months ≠ 0 := by omega
  refine ⟨?_, ?_, by decide, by decide, by decide⟩
  · intro h
    subst h
    simp [monthly_payment, hm0]
  · intro hr hpow
    have hr' : rate / 100 / 12 ≠ 0 :=
      div_ne_zero (div_ne_zero hr (by norm_num)) (by norm_num)
    have hden : (1 + rate/100/12) ^ months - 1 ≠ 0 := sub_ne_zero.mpr hpow
    have hnotneg : ¬ (1 + rate/100/12 = 0 ∧ months < 0) := by
      rintro ⟨-, hlt⟩
      omega
    simp only [monthly_payment]
    rw [if_neg hr', if_neg hnotneg, if_neg hden]

/-- Witness for `monthly_payment_spec_amended` at `(10000, 24, 7.86)`. -/
theorem monthly_payment_spec_amended_witness :
    (1:ℤ) ≤ 24 ∧ monthly_payment 10000 24 (786/100) = some (45163/100) :=
  ⟨by decide, (monthly_payment_spec_amended 10000 24 (786/100) (by decide)).2.2.1⟩

/-- Any integer `m` with `m/2^42` within half an ulp of 1234.005 is the
binary64 mantissa-scaled value of the literal `1234.005`. -/
theorem mantissa_1234005 (m : ℤ) (h : |(m : ℚ)/2^42 - 1234005/1000| ≤ 1/2^43) :
    m = 5427211384934892 := by
  rw [abs_le] at h
  obtain ⟨h1, h2⟩ := h
  have hlo : (5427211384934891 : ℚ) < (m : ℚ) := by linarith
  have hhi : (m : ℚ) < 5427211384934893 := by linarith
  have hlo' : (5427211384934891 : ℤ) < m := by exact_mod_cast hlo
  have hhi' : m < (5427211384934893 : ℤ) := by exact_mod_cast hhi
  omega

/-- Any integer `m` with `m/2^42` within half an ulp of 1234.994 is the
binary64 mantissa-scaled value of the literal `1234.994`. -/
theorem mantissa_1234994 (m : ℤ) (h : |(m : ℚ)/2^42 - 1234994/1000| ≤ 1/2^43) :
    m = 5431561052934373 := by
  rw [abs_le] at h
  obtain ⟨h1, h2⟩ := h
  have hlo : (5431561052934372 : ℚ) < (m : ℚ) := by linarith
  have hhi : (m : ℚ) < 5431561052934374 := by linarith
  have hlo' : (5431561052934372 : ℤ) < m := by exact_mod_cast hlo
  have hhi' : m < (5431561052934374 : ℤ) := by exact_mod_cast hhi
  omega

/-- C2: `money` renders `"€ "` followed by the value rounded at 2 decimals
with ties away from zero (half-up), not banker's rounding: for `x ≥ 0` the
cent count is within half a cent of `100·x` and an exact half-cent tie rounds
up.  The literals `1234.005` and `1234.994` denote binary64 floats, i.e. the
unique dyadics with denominator `2^42` (both literals lie in `[2^10, 2^11)`,
where the ulp is `2^-42`) within half an ulp of the decimal value — for any
such value the code prints `"€ 1234.01"` resp. `"€ 1234.99"`. -/
theorem money_round_half_up (x a b : ℚ) (hx : 0 ≤ x)
    (ha : ∃ m : ℤ, a = (m : ℚ) / 2^42) (ha2 : |a - 1234005/1000| ≤ 1/2^43)
    (hb : ∃ m : ℤ, b = (m : ℚ) / 2^42) (hb2 : |b - 1234994/1000| ≤ 1/2^43) :
    |(quantizeHalfUp2 x : ℚ) - x * 100| ≤ 1/2 ∧
    (x * 100 - ratFloor (x * 100) = 1/2 → quantizeHalfUp2 x = ratFloor (x * 100) + 1) ∧
    money a = "€ 1234.01" ∧ money b = "€ 1234.99" := by
  have hq : quantizeHalfUp2 x = ⌊x * 100 + 1/2⌋ := by
    rw [quantizeHalfUp2, if_pos hx, ratFloor_eq_floor]
  refine ⟨?_, ?_, ?_, ?_⟩
  · rw [hq, abs_le]
    have h1 := Int.floor_le (x * 100 + 1/2)
    have h2 := Int.lt_floor_add_one (x * 100 + 1/2)
    constructor <;> linarith
  · intro ht
    rw [ratFloor_eq_floor] at ht
    rw [hq, ratFloor_eq_floor,
      show x * 100 + 1/2 = ((⌊x * 100⌋ + 1 : ℤ) : ℚ) by push_cast; linarith]
    rw [Int.floor_intCast]
  · obtain ⟨m, rfl⟩ := ha
    rw [mantissa_1234005 m ha2]
    decide
  · obtain ⟨m, rfl⟩ := hb
    rw [mantissa_1234994 m hb2]
    decide

/-- Witness for `money_round_half_up` at `x = 0.015` (an exact half-cent tie)
and the two binary64 example values. -/
theorem money_round_half_up_witness :
    quantizeHalfUp2 (3/200) = ratFloor ((3/200) * 100) + 1 ∧
    money (5427211384934892/2^42) = "€ 1234.01" ∧
    money (5431561052934373/2^42) = "€ 1234.99" :=
  have h := money_round_half_up (3/200) (5427211384934892/2^42) (5431561052934373/2^42)
    (by norm_num) ⟨5427211384934892, by norm_num⟩
    (by rw [abs_le]; constructor <;> norm_num)
    ⟨5431561052934373, by norm_num⟩
    (by rw [abs_le]; constructor <;> norm_num)
  ⟨h.2.1 (by decide), h.2.2.1, h.2.2.2⟩

/-- C3 counterexample.  `_letter_common` registers `_border` only as
`onFirstPage` (line 281), so the border is drawn on page 1 but page 2 of a
letter gets no decoration at all, contradicting "on every page". -/
theorem border_every_page_counterexample :
    decorationsOnPage letterBuild true 1 = borderOps ∧
    decorationsOnPage letterBuild true 2 = [] := by decide

/-- C3 (amended): the contract's logo callback runs on every page (drawing
exactly when the asset exists); the letter border is drawn on the first page
only, and pages ≥ 2 of a letter carry no page decoration;
`build_lettera_garanzia` registers no page callback at all (its logo is an
inline first-page flowable, not a page decoration). -/
theorem page_decorations_amended (p : ℕ) (_hp : 1 ≤ p) (assetOk : Bool) :
    decorationsOnPage contrattoBuild assetOk p = draw_logo assetOk ∧
    decorationsOnPage letterBuild assetOk 1 = borderOps ∧
    (2 ≤ p → decorationsOnPage letterBuild assetOk p = []) ∧
    decorationsOnPage garanziaBuild assetOk p = [] := by
  refine ⟨?_, by simp [decorationsOnPage, pageOps, letterBuild], ?_, ?_⟩
  · by_cases h : p = 1 <;> simp [decorationsOnPage, pageOps, contrattoBuild, letterBuild, garanziaBuild, h]
  · intro h2
    have h1 : p ≠ 1 := by omega
    simp [decorationsOnPage, pageOps, letterBuild, h1]
  · by_cases h : p = 1 <;> simp [decorationsOnPage, pageOps, contrattoBuild, letterBuild, garanziaBuild, h]

/-- Witness for `page_decorations_amended` at page 2 with the asset present. -/
theorem page_decorations_amended_witness :
    decorationsOnPage contrattoBuild true 2 = draw_logo true ∧
    decorationsOnPage letterBuild true 2 = [] :=
  have h := page_decorations_amended 2 (by decide) true
  ⟨h.1, h.2.2.1 (by decide)⟩

/-- C4 counterexample.  A non-numeric, non-empty reply in `ASK_TAN` or
`ASK_TAEG` is NOT recovered: `ask_tan`/`ask_taeg` call `float(...)` with no
try/except, so the handler raises instead of re-prompting. -/
theorem asktan_raises_counterexample :
    conv .askTan emptyData "abc" = .raised ∧
    conv .askTaeg emptyData "abc" = .raised := by decide

/-- C4 (amended): malformed amount and duration tokens are recovered locally
(re-prompt, same state, data untouched), but a non-numeric non-empty reply in
`ASK_TAN` or `ASK_TAEG` raises an uncaught `ValueError` — no re-prompt, no
local recovery. -/
theorem input_recovery_amended :
    (∀ (d : UserData) (t : String), isCommand t = false → parseAmountText t = none →
      conv .askAmount d t = .ok .askAmount d ["Importo non valido, riprova:"] []) ∧
    (∀ (d : UserData) (t : String), isCommand t = false → pyInt? t = none →
      conv .askDuration d t = .ok .askDuration d ["Durata non valida, riprova:"] []) ∧
    (∀ (d : UserData) (t : String), isCommand t = false → pyStrip t ≠ "" →
      pyFloat? (mapChar (pyStrip t) ',' '.') = none → conv .askTan d t = .raised) ∧
    (∀ (d : UserData) (t : String), isCommand t = false → pyStrip t ≠ "" →
      pyFloat? (mapChar (pyStrip t) ',' '.') = none → conv .askTaeg d t = .raised) := by
  refine ⟨?_, ?_, ?_, ?_⟩
  · intro d t hc hp
    simp [conv, hc, ask_amount, hp]
  · intro d t hc hp
    simp [conv, hc, ask_duration, hp]
  · intro d t hc hne hp
    simp [conv, hc, ask_tan, hne, hp]
  · intro d t hc hne hp
    simp [conv, hc, ask_taeg, hne, hp]

/-- Witness for `input_recovery_amended` on concrete malformed tokens. -/
theorem input_recovery_amended_witness :
    conv .askAmount emptyData "xx" = .ok .askAmount emptyData ["Importo non valido, riprova:"] [] ∧
    conv .askDuration emptyData "xx" = .ok .askDuration emptyData ["Durata non valida, riprova:"] [] ∧
    conv .askTan emptyData "zz" = .raised ∧
    conv .askTaeg emptyData "zz" = .raised :=
  ⟨input_recovery_amended.1 emptyData "xx" (by decide) (by decide),
   input_recovery_amended.2.1 emptyData "xx" (by decide) (by decide),
   input_recovery_amended.2.2.1 emptyData "zz" (by decide) (by decide) (by decide),
   input_recovery_amended.2.2.2 emptyData "zz" (by decide) (by decide) (by decide)⟩

/-- C5 counterexample.  With the signature asset missing, `_letter_common`'s
story is NOT "structurally identical except for the absent image element":
even after deleting all image flowables from both stories they differ,
because the guarded block also holds the caption paragraph (and a spacer). -/
theorem asset_missing_structural_counterexample :
    removeImages (letterElems true true "s" "b") ≠
      removeImages (letterElems true false "s" "b") := by decide

/-- C5 (amended): a missing optional asset never makes an image flowable or a
canvas image operation appear (the render is a total function, so it completes
without raising), but in `_letter_common` the missing signature also drops the
adjacent spacer and the caption paragraph, and the missing logo drops its
adjacent spacer; only the `SignatureLine` overlay and the contract page-logo
degrade by exactly the image operation. -/
theorem asset_missing_amended (logoOk sigOk : Bool) (subject body label p : String)
    (width signW signH textWidth : ℚ) :
    (letterElems logoOk sigOk subject body).all (imageOk logoOk sigOk) = true ∧
    letterElems logoOk true subject body =
      letterElems logoOk false subject body ++
        [.image SIGNATURE_PATH (4*cm) (2*cm), .spacer 1 4,
         .para "Responsabile Ufficio Crediti Clientela Privata" "Body"] ∧
    letterElems true sigOk subject body =
      [.image LOGO_PATH (4*cm) (4*cm), .spacer 1 8] ++ letterElems false sigOk subject body ∧
    signatureLineDraw label width (some p) signW signH textWidth false =
      [.text 0 0 label, .line (textWidth + 6) 0 width 0] ∧
    draw_logo false = [] := by
  refine ⟨?_, ?_, by simp [letterElems], by simp [signatureLineDraw], by simp [draw_logo]⟩
  · cases logoOk <;> cases sigOk <;>
      simp [letterElems, imageOk, LOGO_PATH, SIGNATURE_PATH]
  · cases logoOk <;> simp [letterElems]

/-- C6 counterexample.  `ask_duration` accepts `"0"` (Python `int` performs no
positivity check) and `ask_amount` accepts `"-5"`, and the flow that continues
from the stored `duration = 0` reaches the payment computation where
`monthly_payment` divides by zero and the handler raises — the promised
upstream rejection does not exist. -/
theorem duration_zero_counterexample :
    conv .askDuration ⟨some "/carta", some "X", some 100, none, none, none, none⟩ "0" =
      .ok .askTan ⟨some "/carta", some "X", some 100, some 0, none, none, none⟩
        ["Inserisci TAN (%), enter per 7.86%:"] [] ∧
    conv .askAmount emptyData "-5" =
      .ok .askDuration ⟨none, none, some (-5), none, none, none, none⟩
        ["Inserisci durata (mesi):"] [] ∧
    runTrace .askDuration ⟨some "/carta", some "X", some 100, none, none, none, none⟩
      ["0", "", ""] = none := by decide

/-- C6 (amended): `ask_duration` stores any integer-parsing token (zero and
negative included) and `ask_amount` any float-parsing token (negative
included); `monthly_payment` itself raises `ZeroDivisionError` whenever
`months = 0`, for every amount and rate. -/
theorem duration_amount_validation_amended (d : UserData) (t : String) (n : ℤ)
    (a v rate : ℚ) :
    (isCommand t = false → pyInt? t = some n →
      conv .askDuration d t = .ok .askTan { d with duration := some n }
        ["Inserisci TAN (%), enter per 7.86%:"] []) ∧
    (isCommand t = false → parseAmountText t = some v →
      conv .askAmount d t = .ok .askDuration { d with amount := some (pyRound2 v) }
        ["Inserisci durata (mesi):"] []) ∧
    monthly_payment a 0 rate = none := by
  refine ⟨?_, ?_, ?_⟩
  · intro hc hp
    simp [conv, hc, ask_duration, hp]
  · intro hc hp
    simp [conv, hc, ask_amount, hp]
  · by_cases h : rate/100/12 = 0
    · simp [monthly_payment, h]
    · simp [monthly_payment, h]

/-- Witness for `duration_amount_validation_amended` at token `"0"`. -/
theorem duration_amount_validation_amended_witness :
    conv .askDuration emptyData "0" =
      .ok .askTan { emptyData with duration := some 0 }
        ["Inserisci TAN (%), enter per 7.86%:"] [] ∧
    monthly_payment 100 0 (786/100) = none :=
  have h := duration_amount_validation_amended emptyData "0" 0 100 0 (786/100)
  ⟨h.1 (by decide) (by decide), h.2.2⟩

/-- C7: `/cancel` and `/start` are accepted from every state, reset the
machine to `CHOOSING_DOC` and clear every collected field; consequently the
remainder of any run after the interrupt is exactly the run from a fresh
session — nothing from the abandoned session can leak into a later flow. -/
theorem cancel_start_total_reset (s : ConvState) (d : UserData) (msgs : List String) :
    conv s d "/cancel" = .ok .choosing emptyData ["Operazione annullata.", welcomeText] [] ∧
    conv s d "/start" = .ok .choosing emptyData [welcomeText] [] ∧
    runTrace s d ("/cancel" :: msgs) =
      (runTrace .choosing emptyData msgs).map (fun r => (ConvState.choosing :: r.1, r.2)) ∧
    runTrace s d ("/start" :: msgs) =
      (runTrace .choosing emptyData msgs).map (fun r => (ConvState.choosing :: r.1, r.2)) := by
  have hc : isCommand "/cancel" = true := by decide
  have hs : isCommand "/start" = true := by decide
  have h1 : conv s d "/cancel" = .ok .choosing emptyData ["Operazione annullata.", welcomeText] [] := by
    cases s <;> simp [conv, hc, fallbacks, cancel]
  have h2 : conv s d "/start" = .ok .choosing emptyData [welcomeText] [] := by
    cases s <;> simp [conv, hs, fallbacks, start]
  refine ⟨h1, h2, ?_, ?_⟩
  · rw [runTrace, h1]
    cases h : runTrace .choosing emptyData msgs with
    | none => simp [h]
    | some r =>
      obtain ⟨tr, dF, docsF⟩ := r
      simp [h]
  · rw [runTrace, h2]
    cases h : runTrace .choosing emptyData msgs with
    | none => simp [h]
    | some r =>
      obtain ⟨tr, dF, docsF⟩ := r
      simp [h]

/-- C8: `SignatureLine.draw` emits the label at the baseline origin, a line on
the same baseline `y = 0` from the label width plus a fixed 6-point gap to the
block width, and (asset present) an overlay image whose horizontal centre is
the centre of the line span and whose vertical centre lies on the baseline;
with no overlay path only label and line are drawn. -/
theorem signature_line_layout (label p : String) (width signW signH textWidth : ℚ) :
    signatureLineDraw label width (some p) signW signH textWidth true =
      [.text 0 0 label,
       .line (textWidth + 6) 0 width 0,
       .image p ((textWidth + 6) + ((width - (textWidth + 6)) - signW) / 2)
         (0 - signH / 2) signW signH] ∧
    ((textWidth + 6) + ((width - (textWidth + 6)) - signW) / 2) + signW / 2 =
      ((textWidth + 6) + width) / 2 ∧
    (0 - signH / 2) + signH / 2 = 0 ∧
    signatureLineDraw label width none signW signH textWidth true =
      [.text 0 0 label, .line (textWidth + 6) 0 width 0] := by
  refine ⟨by simp [signatureLineDraw], by ring, by ring, by simp [signatureLineDraw]⟩

/-- C9: after choosing `/garanzia`, a single name message immediately yields
the document `Garanzia_<name>.pdf` and returns to `CHOOSING_DOC` — the trace
is `[ASK_NAME, CHOOSING_DOC]`, never touching `ASK_AMOUNT`; the complete
contract and card flows produce `Contratto_<name>.pdf` and `Carta_<name>.pdf`
respectively. -/
theorem garanzia_shortcut_and_filenames (name : String) (h : isCommand name = false) :
    runTrace .choosing emptyData ["/garanzia", name] =
      some ([.askName, .choosing], emptyData, ["Garanzia_" ++ pyStrip name ++ ".pdf"]) ∧
    ConvState.askAmount ∉ [ConvState.askName, ConvState.choosing] ∧
    runTrace .choosing emptyData ["/contratto", "Mario Rossi", "1000", "12", "", ""] =
      some ([.askName, .askAmount, .askDuration, .askTan, .askTaeg, .choosing],
        emptyData, ["Contratto_Mario Rossi.pdf"]) ∧
    runTrace .choosing emptyData ["/carta", "Mario Rossi", "5000", "36", "", ""] =
      some ([.askName, .askAmount, .askDuration, .askTan, .askTaeg, .choosing],
        emptyData, ["Carta_Mario Rossi.pdf"]) := by
  refine ⟨?_, by decide, by decide, by decide⟩
  simp [runTrace, conv, choose_doc, h, ask_name]

/-- Witness for `garanzia_shortcut_and_filenames` at name `"Mario Rossi"`. -/
theorem garanzia_shortcut_witness :
    runTrace .choosing emptyData ["/garanzia", "Mario Rossi"] =
      some ([.askName, .choosing], emptyData,
        ["Garanzia_" ++ pyStrip "Mario Rossi" ++ ".pdf"]) :=
  (garanzia_shortcut_and_filenames "Mario Rossi" (by decide)).1

/-- C10: on acceptance `ask_amount` stores `round(parsed, 2)` (Python's
`round`), so any two raw tokens whose parsed values round to the same
2-decimal value leave identical session data, and every downstream payment
computed from the stored amount is identical. -/
theorem amount_rounding_invariant (d : UserData) (t1 t2 : String) (v1 v2 : ℚ)
    (h1 : parseAmountText t1 = some v1) (h2 : parseAmountText t2 = some v2)
    (hr : pyRound2 v1 = pyRound2 v2) :
    ask_amount d t1 = .ok .askDuration { d with amount := some (pyRound2 v1) }
      ["Inserisci durata (mesi):"] [] ∧
    ask_amount d t1 = ask_amount d t2 ∧
    (∀ (months : ℤ) (rate : ℚ),
      monthly_payment (pyRound2 v1) months rate = monthly_payment (pyRound2 v2) months rate) := by
  refine ⟨by simp [ask_amount, h1], ?_, fun months rate => by rw [hr]⟩
  simp [ask_amount, h1, h2, hr]

/-- Witness for `amount_rounding_invariant` on `"10.004"` and `"10,001"`. -/
theorem amount_rounding_invariant_witness :
    ask_amount emptyData "10.004" =
      .ok .askDuration { emptyData with amount := some (pyRound2 (10 + 4/1000)) }
        ["Inserisci durata (mesi):"] [] ∧
    ask_amount emptyData "10.004" = ask_amount emptyData "10,001" :=
  have h := amount_rounding_invariant emptyData "10.004" "10,001" (10 + 4/1000) (10 + 1/1000)
    (by decide) (by decide) (by decide)
  ⟨h.1, h.2.1⟩

end TelegramDocumentBot
